import Mathlib

/-!
Verification of the CPUTune reconciliation engine (src/CPUTune/CPUTune.cpp).

The development shallowly embeds the engine: the five managed model-specific
registers are a record of natural numbers, the engine state carries the
captured original values, the SpeedShift latch and a write log, and each
feature operation from the source is translated as a pure state transformer.
Every register write goes through setIfNotEqual, which records the event
(register, value read, value written) in the log, so that write counting and
the read-before-write discipline can be stated as theorems.

Bit masks, the hexadecimal parser and the bounded file read helper are
declared in headers that are not part of the translated source; they are
modelled from the specification and marked as such in their doc comments.
-/

namespace CPUTune

/-- The five model-specific registers managed by the engine. -/
inductive MSRAddr where
  | MISC_ENABLE
  | PERF_CTL
  | POWER_CTL
  | PM_ENABLE
  | HWP_REQUEST
deriving DecidableEq, Repr

/-- The 64-bit contents of the five managed registers. -/
structure MSRs where
  misc_enable : Nat
  perf_ctl : Nat
  power_ctl : Nat
  pm_enable : Nat
  hwp_request : Nat
deriving DecidableEq, Repr

/-- Atomic register read, rdmsr64 in the source. -/
def rdmsr64 (s : MSRs) (m : MSRAddr) : Nat :=
  match m with
  | .MISC_ENABLE => s.misc_enable
  | .PERF_CTL => s.perf_ctl
  | .POWER_CTL => s.power_ctl
  | .PM_ENABLE => s.pm_enable
  | .HWP_REQUEST => s.hwp_request

/-- Atomic register write, wrmsr64 in the source. -/
def wrmsr64 (s : MSRs) (m : MSRAddr) (v : Nat) : MSRs :=
  match m with
  | .MISC_ENABLE => { s with misc_enable := v }
  | .PERF_CTL => { s with perf_ctl := v }
  | .POWER_CTL => { s with power_ctl := v }
  | .PM_ENABLE => { s with pm_enable := v }
  | .HWP_REQUEST => { s with hwp_request := v }

/-- Modelled from the spec: the header declaring the mask is not in the
translated source.  The MISC_ENABLE turbo mask with the bit-38 disable bit
cleared and every other register bit set; the source comment on
enableTurboBoost says the AND with this mask flips bit 38 to 0. -/
def kEnableTurboBoostBits : Nat := (2 ^ 64 - 1) ^^^ 2 ^ 38

/-- Modelled from the spec: the header declaring the mask is not in the
translated source.  The MISC_ENABLE turbo disable bit, bit 38; the source
comment on disableTurboBoost says the OR with this mask flips bit 38 to 1. -/
def kDisableTurboBoostBits : Nat := 2 ^ 38

/-- Modelled from the spec: the header declaring the bit is not in the
translated source.  The dedicated ProcHot bit of POWER_CTL, taken as the low
bit, with kDisableProcHotBit its 64-bit complement. -/
def kEnableProcHotBit : Nat := 1

/-- Modelled from the spec: the header declaring the mask is not in the
translated source.  The 64-bit complement of the ProcHot bit; ANDing with it
clears exactly that bit. -/
def kDisableProcHotBit : Nat := (2 ^ 64 - 1) ^^^ 1

/-- Modelled from the spec: the header declaring the bit is not in the
translated source.  The PM_ENABLE SpeedShift enable pattern, the dedicated
enable bit. -/
def kEnableSpeedShiftBit : Nat := 1

/-- Modelled from the spec: the header declaring the pattern is not in the
translated source.  The complementary clear pattern written to PM_ENABLE by
disableSpeedShift. -/
def kDisableSpeedShiftBit : Nat := 0

/-- The platform error code compared against the hexadecimal parse result in
readConfigAtRuntime; ERANGE is 34 on the target platform. -/
def ERANGE : Nat := 34

/-- One recorded write event: the register, the value the caller had read
from it, and the value written. -/
abbrev WriteEvent := MSRAddr × Nat × Nat

/-- Engine state: current register contents, the original values captured by
init, the SpeedShift once-only latch, and the log of write events. -/
structure Engine where
  msrs : MSRs
  org_MSR_IA32_MISC_ENABLE : Nat
  org_MSR_IA32_PERF_CTL : Nat
  org_MSR_IA32_POWER_CTL : Nat
  org_HWPRequest : Nat
  org_MSR_IA32_PM_ENABLE : Nat
  hwpEnableOnceSet : Bool
  log : List WriteEvent
deriving DecidableEq, Repr

/-- setIfNotEqual from the source: write expect to msr when current differs,
report whether a write occurred.  The write event is recorded in the log. -/
def setIfNotEqual (current expect : Nat) (msr : MSRAddr) (e : Engine) :
    Bool × Engine :=
  if current ≠ expect then
    (true, { e with msrs := wrmsr64 e.msrs msr expect
                  , log := e.log ++ [(msr, current, expect)] })
  else
    (false, e)

/-- enableTurboBoost: clear bit 38 of MISC_ENABLE, write if different. -/
def enableTurboBoost (e : Engine) : Engine :=
  let cur := rdmsr64 e.msrs .MISC_ENABLE
  let val := cur &&& kEnableTurboBoostBits
  (setIfNotEqual cur val .MISC_ENABLE e).2

/-- disableTurboBoost: set bit 38 of MISC_ENABLE, write if different. -/
def disableTurboBoost (e : Engine) : Engine :=
  let cur := rdmsr64 e.msrs .MISC_ENABLE
  let val := cur ||| kDisableTurboBoostBits
  (setIfNotEqual cur val .MISC_ENABLE e).2

/-- disableProcHot: clear the ProcHot bit of POWER_CTL, write if different. -/
def disableProcHot (e : Engine) : Engine :=
  let cur := rdmsr64 e.msrs .POWER_CTL
  let val := cur &&& kDisableProcHotBit
  (setIfNotEqual cur val .POWER_CTL e).2

/-- enableProcHot: set the ProcHot bit of POWER_CTL, write if different. -/
def enableProcHot (e : Engine) : Engine :=
  let cur := rdmsr64 e.msrs .POWER_CTL
  let val := cur ||| kEnableProcHotBit
  (setIfNotEqual cur val .POWER_CTL e).2

/-- enableSpeedShift: write the whole enable pattern to PM_ENABLE if the
current value differs; no masking with the current value. -/
def enableSpeedShift (e : Engine) : Engine :=
  let cur := rdmsr64 e.msrs .PM_ENABLE
  (setIfNotEqual cur kEnableSpeedShiftBit .PM_ENABLE e).2

/-- disableSpeedShift: write the whole clear pattern to PM_ENABLE if the
current value differs; no masking with the current value. -/
def disableSpeedShift (e : Engine) : Engine :=
  let cur := rdmsr64 e.msrs .PM_ENABLE
  (setIfNotEqual cur kDisableSpeedShiftBit .PM_ENABLE e).2

/-- Modelled from the spec: readFileNBytes is declared in a helper header
that is not in the translated source.  A configured external source is an
optional byte list (none when the file cannot be read this cycle); the
bounded read returns at most n bytes of it. -/
def readFileNBytes (src : Option (List Nat)) (n : Nat) : Option (List Nat) :=
  src.map (fun bs => bs.take n)

/-- Value of one hexadecimal digit byte, none for a non-hex byte. -/
def hexDigitVal (c : Nat) : Option Nat :=
  if 48 ≤ c ∧ c ≤ 57 then some (c - 48)
  else if 97 ≤ c ∧ c ≤ 102 then some (c - 87)
  else if 65 ≤ c ∧ c ≤ 70 then some (c - 55)
  else none

/-- Accumulated value of a hexadecimal byte string, none when any byte is
not a hexadecimal digit. -/
def hexVal (cs : List Nat) : Option Nat :=
  cs.foldl (fun acc c => acc.bind (fun a => (hexDigitVal c).map (fun d => a * 16 + d))) (some 0)

/-- Modelled from the spec: hexToInt is declared in a helper header that is
not in the translated source.  It parses a short textual hexadecimal token
into an unsigned integer and returns the ERANGE sentinel on failure: empty
input, a non-hex byte, or a value overflowing a signed 64-bit long.  The
sentinel collides with the valid parse of the token 22, which the caller
then treats as malformed; the spec notes this sentinel collision. -/
def hexToInt (cs : List Nat) : Nat :=
  match hexVal cs with
  | some v => if cs ≠ [] ∧ v < 2 ^ 63 then v else ERANGE
  | none => ERANGE

/-- The configuration facts the engine consumes: which source paths are
configured (non-null), the three enable-by-default booleans, the HWP
capability fact and the update interval in milliseconds. -/
structure Config where
  turboBoostPath : Bool
  ProcHotPath : Bool
  speedShiftPath : Bool
  hwpRequestConfigPath : Bool
  enableIntelTurboBoost : Bool
  enableIntelProcHot : Bool
  enableIntelSpeedShift : Bool
  supportedHWP : Bool
  updateInterval : Nat
deriving DecidableEq, Repr

/-- The external desired-state sources as visible in one cycle: for each
feature, the byte content behind its path, or none when the source cannot
be read this cycle. -/
structure Sources where
  turboSrc : Option (List Nat)
  procHotSrc : Option (List Nat)
  speedShiftSrc : Option (List Nat)
  hwpSrc : Option (List Nat)
deriving DecidableEq, Repr

/-- The ASCII byte of the character 1, the enable request marker. -/
def asciiOne : Nat := 49

/-- Desired-state interpretation of a one-byte bounded read: true exactly
when the buffer is present and its first byte is the character 1. -/
def requestedOn (buffer : Option (List Nat)) : Bool :=
  match buffer with
  | some (b :: _) => b == asciiOne
  | some [] => false
  | none => false

/-- The TurboBoost block of readConfigAtRuntime: compare the previous state
rederived from MISC_ENABLE with the requested state and act on a change. -/
def turboBoostStep (cfg : Config) (src : Sources) (e : Engine) : Engine :=
  if cfg.turboBoostPath then
    let prev : Bool := rdmsr64 e.msrs .MISC_ENABLE == (e.org_MSR_IA32_MISC_ENABLE &&& kEnableTurboBoostBits)
    let buffer := readFileNBytes src.turboSrc 1
    let curr : Bool := requestedOn buffer
    if curr != prev then
      if curr then enableTurboBoost e else disableTurboBoost e
    else e
  else e

/-- The ProcHot block of readConfigAtRuntime: a disable request is guarded
by the test that the turbo bits of MISC_ENABLE, masked by
kEnableTurboBoostBits, differ from the full mask; when the guard fails the
request is only logged. -/
def procHotStep (cfg : Config) (src : Sources) (e : Engine) : Engine :=
  if cfg.ProcHotPath then
    let prev : Bool := (rdmsr64 e.msrs .POWER_CTL &&& kEnableProcHotBit) != 0
    let buffer := readFileNBytes src.procHotSrc 1
    let curr : Bool := requestedOn buffer
    if curr != prev then
      if curr then enableProcHot e
      else if (rdmsr64 e.msrs .MISC_ENABLE &&& kEnableTurboBoostBits) != kEnableTurboBoostBits then
        disableProcHot e
      else e
    else e
  else e

/-- The HWP request block of readConfigAtRuntime: bounded ten-byte read,
hexadecimal parse, skip on the ERANGE sentinel, otherwise write the parsed
value if it differs from the current register contents. -/
def hwpRequestStep (cfg : Config) (src : Sources) (e : Engine) : Engine :=
  if cfg.supportedHWP && cfg.hwpRequestConfigPath then
    match readFileNBytes src.hwpSrc 10 with
    | some hex =>
      let req := hexToInt hex
      if req == ERANGE then e
      else
        let curHWPRequest := rdmsr64 e.msrs .HWP_REQUEST
        let usrHWPRequest := req
        (setIfNotEqual curHWPRequest usrHWPRequest .HWP_REQUEST e).2
    | none => e
  else e

/-- The SpeedShift block of readConfigAtRuntime: only entered while the
latch is unset; acts on a change between the rederived previous state and
the requested state, and only when the buffer is present.  The block never
sets the latch. -/
def speedShiftStep (cfg : Config) (src : Sources) (e : Engine) : Engine :=
  if !e.hwpEnableOnceSet && (cfg.supportedHWP && cfg.speedShiftPath) then
    let prev : Bool := rdmsr64 e.msrs .PM_ENABLE == kEnableSpeedShiftBit
    let buffer := readFileNBytes src.speedShiftSrc 1
    let curr : Bool := requestedOn buffer
    if buffer.isSome && (curr != prev) then
      if curr then enableSpeedShift e else disableSpeedShift e
    else e
  else e

/-- readConfigAtRuntime: one reconciliation cycle over the four feature
blocks in source order, ending by rescheduling the timer with the current
update interval, returned as the second component. -/
def readConfigAtRuntime (cfg : Config) (src : Sources) (e : Engine) :
    Engine × Nat :=
  let e := turboBoostStep cfg src e
  let e := procHotStep cfg src e
  let e := hwpRequestStep cfg src e
  let e := speedShiftStep cfg src e
  (e, cfg.updateInterval)

/-- init: capture the original values of MISC_ENABLE, PERF_CTL, POWER_CTL
and HWP_REQUEST from the hardware state before any feature logic runs.  The
source never assigns org_MSR_IA32_PM_ENABLE; the member starts at the zero
value the object allocator fills in. -/
def init (s : MSRs) : Engine :=
  { msrs := s
  , org_MSR_IA32_MISC_ENABLE := s.misc_enable
  , org_MSR_IA32_PERF_CTL := s.perf_ctl
  , org_MSR_IA32_POWER_CTL := s.power_ctl
  , org_HWPRequest := s.hwp_request
  , org_MSR_IA32_PM_ENABLE := 0
  , hwpEnableOnceSet := false
  , log := [] }

/-- start: apply the boot-time feature configuration.  ProcHot is disabled
only when TurboBoost is not requested; SpeedShift is enabled at most once
when HWP is supported, and only this path sets the latch. -/
def start (cfg : Config) (e : Engine) : Engine :=
  let e := if cfg.enableIntelTurboBoost then enableTurboBoost e else disableTurboBoost e
  let e :=
    if cfg.enableIntelProcHot then enableProcHot e
    else if !cfg.enableIntelTurboBoost then disableProcHot e
    else e
  if cfg.supportedHWP then
    if !e.hwpEnableOnceSet && cfg.enableIntelSpeedShift then
      { enableSpeedShift e with hwpEnableOnceSet := true }
    else e
  else e

/-- stop: restore POWER_CTL, MISC_ENABLE and PERF_CTL to their captured
originals, and, when HWP is supported, PM_ENABLE and HWP_REQUEST to the
stored org fields, each written only when the current value differs. -/
def stop (cfg : Config) (e : Engine) : Engine :=
  let e := (setIfNotEqual (rdmsr64 e.msrs .POWER_CTL) e.org_MSR_IA32_POWER_CTL .POWER_CTL e).2
  let e := (setIfNotEqual (rdmsr64 e.msrs .MISC_ENABLE) e.org_MSR_IA32_MISC_ENABLE .MISC_ENABLE e).2
  let e := (setIfNotEqual (rdmsr64 e.msrs .PERF_CTL) e.org_MSR_IA32_PERF_CTL .PERF_CTL e).2
  if cfg.supportedHWP then
    let e := (setIfNotEqual (rdmsr64 e.msrs .PM_ENABLE) e.org_MSR_IA32_PM_ENABLE .PM_ENABLE e).2
    (setIfNotEqual (rdmsr64 e.msrs .HWP_REQUEST) e.org_HWPRequest .HWP_REQUEST e).2
  else e

/-- Number of writes to register m recorded in a write log. -/
def countWrites (m : MSRAddr) (log : List WriteEvent) : Nat :=
  (log.filter (fun x => x.1 == m)).length

/-- A write log respects the no-redundant-write discipline when every
recorded write changed the register: the value read differs from the value
written. -/
def logChanges (log : List WriteEvent) : Bool :=
  log.all (fun x => x.2.1 != x.2.2)

/-! ### Helper lemmas about setIfNotEqual and the cycle steps -/

theorem setIfNotEqual_snd_of_eq {c x : Nat} {m : MSRAddr} {e : Engine}
    (h : c = x) : (setIfNotEqual c x m e).2 = e := by
  simp [setIfNotEqual, h]

theorem setIfNotEqual_snd_of_ne {c x : Nat} {m : MSRAddr} {e : Engine}
    (h : c ≠ x) :
    (setIfNotEqual c x m e).2 =
      { e with msrs := wrmsr64 e.msrs m x, log := e.log ++ [(m, c, x)] } := by
  simp [setIfNotEqual, h]

theorem setIfNotEqual_fst {c x : Nat} {m : MSRAddr} {e : Engine} :
    (setIfNotEqual c x m e).1 = decide (c ≠ x) := by
  by_cases h : c = x <;> simp [setIfNotEqual, h]

theorem countWrites_setIfNotEqual {c x : Nat} {m m' : MSRAddr} {e : Engine}
    (hm : m' ≠ m) :
    countWrites m (setIfNotEqual c x m' e).2.log = countWrites m e.log := by
  by_cases h : c = x
  · simp [setIfNotEqual_snd_of_eq h]
  · simp [setIfNotEqual_snd_of_ne h, countWrites, List.filter_append, hm]

theorem rdmsr64_wrmsr64_ne {s : MSRs} {m m' : MSRAddr} {v : Nat}
    (hm : m' ≠ m) : rdmsr64 (wrmsr64 s m' v) m = rdmsr64 s m := by
  cases m' <;> cases m <;> simp_all [rdmsr64, wrmsr64]

theorem rdmsr64_setIfNotEqual {c x : Nat} {m m' : MSRAddr} {e : Engine}
    (hm : m' ≠ m) :
    rdmsr64 (setIfNotEqual c x m' e).2.msrs m = rdmsr64 e.msrs m := by
  by_cases h : c = x
  · simp [setIfNotEqual_snd_of_eq h]
  · simp [setIfNotEqual_snd_of_ne h, rdmsr64_wrmsr64_ne hm]

theorem logChanges_setIfNotEqual {c x : Nat} {m : MSRAddr} {e : Engine}
    (h : logChanges e.log = true) :
    logChanges (setIfNotEqual c x m e).2.log = true := by
  by_cases hcx : c = x
  · simpa [setIfNotEqual_snd_of_eq hcx] using h
  · simp [setIfNotEqual_snd_of_ne hcx, logChanges, List.all_append] at h ⊢
    exact ⟨h, hcx⟩

theorem latch_setIfNotEqual {c x : Nat} {m : MSRAddr} {e : Engine} :
    (setIfNotEqual c x m e).2.hwpEnableOnceSet = e.hwpEnableOnceSet := by
  by_cases h : c = x
  · simp [setIfNotEqual_snd_of_eq h]
  · simp [setIfNotEqual_snd_of_ne h]

theorem turboBoostStep_frame {cfg : Config} {src : Sources} {e : Engine}
    {m : MSRAddr} (hm : m ≠ .MISC_ENABLE) :
    countWrites m (turboBoostStep cfg src e).log = countWrites m e.log ∧
    rdmsr64 (turboBoostStep cfg src e).msrs m = rdmsr64 e.msrs m ∧
    (turboBoostStep cfg src e).hwpEnableOnceSet = e.hwpEnableOnceSet := by
  unfold turboBoostStep enableTurboBoost disableTurboBoost
  dsimp only
  repeat' split
  all_goals refine ⟨?_, ?_, ?_⟩ <;>
    first
      | rfl
      | exact countWrites_setIfNotEqual (Ne.symm hm)
      | exact rdmsr64_setIfNotEqual (Ne.symm hm)
      | exact latch_setIfNotEqual

theorem procHotStep_frame {cfg : Config} {src : Sources} {e : Engine}
    {m : MSRAddr} (hm : m ≠ .POWER_CTL) :
    countWrites m (procHotStep cfg src e).log = countWrites m e.log ∧
    rdmsr64 (procHotStep cfg src e).msrs m = rdmsr64 e.msrs m ∧
    (procHotStep cfg src e).hwpEnableOnceSet = e.hwpEnableOnceSet := by
  unfold procHotStep enableProcHot disableProcHot
  dsimp only
  repeat' split
  all_goals refine ⟨?_, ?_, ?_⟩ <;>
    first
      | rfl
      | exact countWrites_setIfNotEqual (Ne.symm hm)
      | exact rdmsr64_setIfNotEqual (Ne.symm hm)
      | exact latch_setIfNotEqual

theorem hwpRequestStep_frame {cfg : Config} {src : Sources} {e : Engine}
    {m : MSRAddr} (hm : m ≠ .HWP_REQUEST) :
    countWrites m (hwpRequestStep cfg src e).log = countWrites m e.log ∧
    rdmsr64 (hwpRequestStep cfg src e).msrs m = rdmsr64 e.msrs m ∧
    (hwpRequestStep cfg src e).hwpEnableOnceSet = e.hwpEnableOnceSet := by
  unfold hwpRequestStep
  dsimp only
  repeat' split
  all_goals refine ⟨?_, ?_, ?_⟩ <;>
    first
      | rfl
      | exact countWrites_setIfNotEqual (Ne.symm hm)
      | exact rdmsr64_setIfNotEqual (Ne.symm hm)
      | exact latch_setIfNotEqual

theorem speedShiftStep_frame {cfg : Config} {src : Sources} {e : Engine}
    {m : MSRAddr} (hm : m ≠ .PM_ENABLE) :
    countWrites m (speedShiftStep cfg src e).log = countWrites m e.log ∧
    rdmsr64 (speedShiftStep cfg src e).msrs m = rdmsr64 e.msrs m ∧
    (speedShiftStep cfg src e).hwpEnableOnceSet = e.hwpEnableOnceSet := by
  unfold speedShiftStep enableSpeedShift disableSpeedShift
  dsimp only
  repeat' split
  all_goals refine ⟨?_, ?_, ?_⟩ <;>
    first
      | rfl
      | exact countWrites_setIfNotEqual (Ne.symm hm)
      | exact rdmsr64_setIfNotEqual (Ne.symm hm)
      | exact latch_setIfNotEqual

theorem turboBoostStep_logChanges {cfg : Config} {src : Sources} {e : Engine}
    (h : logChanges e.log = true) :
    logChanges (turboBoostStep cfg src e).log = true := by
  unfold turboBoostStep enableTurboBoost disableTurboBoost
  dsimp only
  repeat' split
  all_goals first | exact h | exact logChanges_setIfNotEqual h

theorem procHotStep_logChanges {cfg : Config} {src : Sources} {e : Engine}
    (h : logChanges e.log = true) :
    logChanges (procHotStep cfg src e).log = true := by
  unfold procHotStep enableProcHot disableProcHot
  dsimp only
  repeat' split
  all_goals first | exact h | exact logChanges_setIfNotEqual h

theorem hwpRequestStep_logChanges {cfg : Config} {src : Sources} {e : Engine}
    (h : logChanges e.log = true) :
    logChanges (hwpRequestStep cfg src e).log = true := by
  unfold hwpRequestStep
  dsimp only
  repeat' split
  all_goals first | exact h | exact logChanges_setIfNotEqual h

theorem speedShiftStep_logChanges {cfg : Config} {src : Sources} {e : Engine}
    (h : logChanges e.log = true) :
    logChanges (speedShiftStep cfg src e).log = true := by
  unfold speedShiftStep enableSpeedShift disableSpeedShift
  dsimp only
  repeat' split
  all_goals first | exact h | exact logChanges_setIfNotEqual h

theorem speedShiftStep_none {cfg : Config} {src : Sources} {e : Engine}
    (h : src.speedShiftSrc = none) : speedShiftStep cfg src e = e := by
  simp [speedShiftStep, readFileNBytes, h]

theorem hwpRequestStep_none {cfg : Config} {src : Sources} {e : Engine}
    (h : src.hwpSrc = none) : hwpRequestStep cfg src e = e := by
  simp [hwpRequestStep, readFileNBytes, h]

theorem hwpRequestStep_erange {cfg : Config} {src : Sources} {e : Engine}
    {bs : List Nat} (h : src.hwpSrc = some bs)
    (he : hexToInt (bs.take 10) = ERANGE) : hwpRequestStep cfg src e = e := by
  simp [hwpRequestStep, readFileNBytes, h, he]

theorem hwpRequestStep_current {cfg : Config} {src : Sources} {e : Engine}
    {bs : List Nat} (h : src.hwpSrc = some bs)
    (he : hexToInt (bs.take 10) = rdmsr64 e.msrs .HWP_REQUEST) :
    hwpRequestStep cfg src e = e := by
  unfold hwpRequestStep readFileNBytes
  rw [h]
  dsimp only [Option.map]
  repeat' split
  all_goals first | rfl | exact setIfNotEqual_snd_of_eq he.symm

theorem turboBoostStep_hwpSrc {cfg : Config} {src : Sources} {e : Engine}
    {x : Option (List Nat)} :
    turboBoostStep cfg { src with hwpSrc := x } e = turboBoostStep cfg src e := rfl

theorem procHotStep_hwpSrc {cfg : Config} {src : Sources} {e : Engine}
    {x : Option (List Nat)} :
    procHotStep cfg { src with hwpSrc := x } e = procHotStep cfg src e := rfl

theorem speedShiftStep_hwpSrc {cfg : Config} {src : Sources} {e : Engine}
    {x : Option (List Nat)} :
    speedShiftStep cfg { src with hwpSrc := x } e = speedShiftStep cfg src e := rfl

theorem hwpRequestStep_take10 {cfg : Config} {src : Sources} {e : Engine}
    {bs : List Nat} :
    hwpRequestStep cfg { src with hwpSrc := some (bs.take 10) } e =
      hwpRequestStep cfg { src with hwpSrc := some bs } e := by
  unfold hwpRequestStep readFileNBytes
  dsimp only [Option.map]
  rw [List.take_take]
  norm_num

theorem land_mask_absorb (a b : Nat) : (a &&& b) &&& b = a &&& b := by
  rw [Nat.land_assoc]
  apply congrArg
  apply Nat.eq_of_testBit_eq
  intro i
  simp [Nat.testBit_land]

theorem lor_mask_absorb (a b : Nat) : (a ||| b) ||| b = a ||| b := by
  rw [Nat.lor_assoc]
  apply congrArg
  apply Nat.eq_of_testBit_eq
  intro i
  simp [Nat.testBit_lor]

theorem enableSpeedShift_pm (e : Engine) :
    (enableSpeedShift e).msrs.pm_enable = kEnableSpeedShiftBit := by
  unfold enableSpeedShift
  dsimp only
  by_cases h : rdmsr64 e.msrs .PM_ENABLE = kEnableSpeedShiftBit
  · rw [setIfNotEqual_snd_of_eq h]
    exact h
  · rw [setIfNotEqual_snd_of_ne h]
    rfl

theorem disableSpeedShift_pm (e : Engine) :
    (disableSpeedShift e).msrs.pm_enable = kDisableSpeedShiftBit := by
  unfold disableSpeedShift
  dsimp only
  by_cases h : rdmsr64 e.msrs .PM_ENABLE = kDisableSpeedShiftBit
  · rw [setIfNotEqual_snd_of_eq h]
    exact h
  · rw [setIfNotEqual_snd_of_ne h]
    rfl

theorem enableTurboBoost_fixed (e : Engine) :
    (enableTurboBoost e).msrs.misc_enable &&& kEnableTurboBoostBits
      = (enableTurboBoost e).msrs.misc_enable := by
  unfold enableTurboBoost
  dsimp only
  by_cases h : rdmsr64 e.msrs .MISC_ENABLE
      = rdmsr64 e.msrs .MISC_ENABLE &&& kEnableTurboBoostBits
  · rw [setIfNotEqual_snd_of_eq h]
    exact h.symm
  · rw [setIfNotEqual_snd_of_ne h]
    exact land_mask_absorb _ _

theorem enableProcHot_fixed (e : Engine) :
    (enableProcHot e).msrs.power_ctl ||| kEnableProcHotBit
      = (enableProcHot e).msrs.power_ctl := by
  unfold enableProcHot
  dsimp only
  by_cases h : rdmsr64 e.msrs .POWER_CTL
      = rdmsr64 e.msrs .POWER_CTL ||| kEnableProcHotBit
  · rw [setIfNotEqual_snd_of_eq h]
    exact h.symm
  · rw [setIfNotEqual_snd_of_ne h]
    exact lor_mask_absorb _ _

theorem enableTurboBoost_of_fixed {e : Engine}
    (h : e.msrs.misc_enable &&& kEnableTurboBoostBits = e.msrs.misc_enable) :
    enableTurboBoost e = e := by
  unfold enableTurboBoost
  dsimp only
  exact setIfNotEqual_snd_of_eq h.symm

theorem enableProcHot_of_fixed {e : Engine}
    (h : e.msrs.power_ctl ||| kEnableProcHotBit = e.msrs.power_ctl) :
    enableProcHot e = e := by
  unfold enableProcHot
  dsimp only
  exact setIfNotEqual_snd_of_eq h.symm

theorem enableSpeedShift_of_fixed {e : Engine}
    (h : e.msrs.pm_enable = kEnableSpeedShiftBit) :
    enableSpeedShift e = e := by
  unfold enableSpeedShift
  dsimp only
  exact setIfNotEqual_snd_of_eq h

/-! ### Claim theorems -/

/-- C8: every invocation of the reconciliation cycle is a total function of
the configuration, the external sources and the engine state — no input,
including absent configuration, unavailable sources, malformed values, guard
violations or an unsupported capability, escalates to a fault — and every
invocation ends by rescheduling itself with the currently configured update
interval. -/
theorem C8_cycle_completes_and_reschedules :
    ∀ (cfg : Config) (src : Sources) (e : Engine),
      (readConfigAtRuntime cfg src e).2 = cfg.updateInterval := by
  intro cfg src e
  rfl

/-- C10: after enableSpeedShift the PM_ENABLE register equals exactly
kEnableSpeedShiftBit and after disableSpeedShift exactly
kDisableSpeedShiftBit, for every prior register value: the operations
replace the whole register rather than masking the current value. -/
theorem C10_speedShift_replaces_whole_register :
    ∀ e : Engine,
      (enableSpeedShift e).msrs.pm_enable = kEnableSpeedShiftBit ∧
      (disableSpeedShift e).msrs.pm_enable = kDisableSpeedShiftBit := by
  intro e
  exact ⟨enableSpeedShift_pm e, disableSpeedShift_pm e⟩

/-- C9: the TurboBoost operations change at most bit 38 of MISC_ENABLE, the
ProcHot operations change at most the ProcHot bit of POWER_CTL, and none of
the four operations touches any other register. -/
theorem C9_feature_ops_frame :
    ∀ (e : Engine) (i : Nat), i < 64 →
      (i ≠ 38 →
        Nat.testBit (enableTurboBoost e).msrs.misc_enable i
            = Nat.testBit e.msrs.misc_enable i ∧
        Nat.testBit (disableTurboBoost e).msrs.misc_enable i
            = Nat.testBit e.msrs.misc_enable i) ∧
      (i ≠ 0 →
        Nat.testBit (enableProcHot e).msrs.power_ctl i
            = Nat.testBit e.msrs.power_ctl i ∧
        Nat.testBit (disableProcHot e).msrs.power_ctl i
            = Nat.testBit e.msrs.power_ctl i) ∧
      (∀ m : MSRAddr, m ≠ .MISC_ENABLE →
        rdmsr64 (enableTurboBoost e).msrs m = rdmsr64 e.msrs m ∧
        rdmsr64 (disableTurboBoost e).msrs m = rdmsr64 e.msrs m) ∧
      (∀ m : MSRAddr, m ≠ .POWER_CTL →
        rdmsr64 (enableProcHot e).msrs m = rdmsr64 e.msrs m ∧
        rdmsr64 (disableProcHot e).msrs m = rdmsr64 e.msrs m) := by
  intro e i hi
  have hiT : decide (i < 64) = true := decide_eq_true hi
  have maskT : i ≠ 38 → Nat.testBit kEnableTurboBoostBits i = true := by
    intro h38
    unfold kEnableTurboBoostBits
    rw [Nat.testBit_xor, Nat.testBit_two_pow_sub_one, Nat.testBit_two_pow, hiT]
    simp [Ne.symm h38]
  have maskP : i ≠ 0 → Nat.testBit kDisableProcHotBit i = true := by
    intro h0
    rw [show kDisableProcHotBit = (2 ^ 64 - 1) ^^^ 2 ^ 0 by rfl]
    rw [Nat.testBit_xor, Nat.testBit_two_pow_sub_one, Nat.testBit_two_pow, hiT]
    simp [Ne.symm h0]
  refine ⟨?_, ?_, ?_, ?_⟩
  · intro h38
    constructor
    · unfold enableTurboBoost
      dsimp only
      by_cases h : rdmsr64 e.msrs .MISC_ENABLE
          = rdmsr64 e.msrs .MISC_ENABLE &&& kEnableTurboBoostBits
      · rw [setIfNotEqual_snd_of_eq h]
      · rw [setIfNotEqual_snd_of_ne h]
        show Nat.testBit (e.msrs.misc_enable &&& kEnableTurboBoostBits) i = _
        rw [Nat.testBit_land, maskT h38, Bool.and_true]
    · unfold disableTurboBoost
      dsimp only
      by_cases h : rdmsr64 e.msrs .MISC_ENABLE
          = rdmsr64 e.msrs .MISC_ENABLE ||| kDisableTurboBoostBits
      · rw [setIfNotEqual_snd_of_eq h]
      · rw [setIfNotEqual_snd_of_ne h]
        show Nat.testBit (e.msrs.misc_enable ||| kDisableTurboBoostBits) i = _
        rw [Nat.testBit_lor]
        rw [show kDisableTurboBoostBits = 2 ^ 38 by rfl, Nat.testBit_two_pow]
        simp [Ne.symm h38]
  · intro h0
    constructor
    · unfold enableProcHot
      dsimp only
      by_cases h : rdmsr64 e.msrs .POWER_CTL
          = rdmsr64 e.msrs .POWER_CTL ||| kEnableProcHotBit
      · rw [setIfNotEqual_snd_of_eq h]
      · rw [setIfNotEqual_snd_of_ne h]
        show Nat.testBit (e.msrs.power_ctl ||| kEnableProcHotBit) i = _
        rw [Nat.testBit_lor]
        rw [show kEnableProcHotBit = 2 ^ 0 by rfl, Nat.testBit_two_pow]
        simp [Ne.symm h0]
    · unfold disableProcHot
      dsimp only
      by_cases h : rdmsr64 e.msrs .POWER_CTL
          = rdmsr64 e.msrs .POWER_CTL &&& kDisableProcHotBit
      · rw [setIfNotEqual_snd_of_eq h]
      · rw [setIfNotEqual_snd_of_ne h]
        show Nat.testBit (e.msrs.power_ctl &&& kDisableProcHotBit) i = _
        rw [Nat.testBit_land, maskP h0, Bool.and_true]
  · intro m hm
    exact ⟨rdmsr64_setIfNotEqual (Ne.symm hm), rdmsr64_setIfNotEqual (Ne.symm hm)⟩
  · intro m hm
    exact ⟨rdmsr64_setIfNotEqual (Ne.symm hm), rdmsr64_setIfNotEqual (Ne.symm hm)⟩

/-- A concrete engine state used to instantiate the frame theorem. -/
def engFrame : Engine :=
  { msrs := { misc_enable := 2 ^ 38 + 2 ^ 3
            , perf_ctl := 0
            , power_ctl := 2 ^ 5 + 1
            , pm_enable := 0
            , hwp_request := 0 }
  , org_MSR_IA32_MISC_ENABLE := 0
  , org_MSR_IA32_PERF_CTL := 0
  , org_MSR_IA32_POWER_CTL := 0
  , org_HWPRequest := 0
  , org_MSR_IA32_PM_ENABLE := 0
  , hwpEnableOnceSet := false
  , log := [] }

/-- Witness for C9: the frame theorem applied at bit 3 of MISC_ENABLE and
bit 5 of POWER_CTL of a concrete state. -/
theorem C9_feature_ops_frame_witness :
    Nat.testBit (enableTurboBoost engFrame).msrs.misc_enable 3
        = Nat.testBit engFrame.msrs.misc_enable 3 ∧
    Nat.testBit (disableProcHot engFrame).msrs.power_ctl 5
        = Nat.testBit engFrame.msrs.power_ctl 5 ∧
    rdmsr64 (enableTurboBoost engFrame).msrs .PM_ENABLE
        = rdmsr64 engFrame.msrs .PM_ENABLE :=
  ⟨((C9_feature_ops_frame engFrame 3 (by decide)).1 (by decide)).1,
   ((C9_feature_ops_frame engFrame 5 (by decide)).2.1 (by decide)).2,
   ((C9_feature_ops_frame engFrame 3 (by decide)).2.2.1 .PM_ENABLE (by decide)).1⟩

/-- Hardware state with every managed register zero. -/
def msrsZero : MSRs :=
  { misc_enable := 0, perf_ctl := 0, power_ctl := 0, pm_enable := 0
  , hwp_request := 0 }

/-- Configuration with only the SpeedShift runtime source configured, HWP
supported and SpeedShift not enabled at boot, so start leaves the latch
unset. -/
def cfgLatch : Config :=
  { turboBoostPath := false, ProcHotPath := false, speedShiftPath := true
  , hwpRequestConfigPath := false, enableIntelTurboBoost := false
  , enableIntelProcHot := false, enableIntelSpeedShift := false
  , supportedHWP := true, updateInterval := 2000 }

/-- Sources where only the SpeedShift file exists and holds one byte b. -/
def srcSpeedShift (b : Nat) : Sources :=
  { turboSrc := none, procHotSrc := none, speedShiftSrc := some [b]
  , hwpSrc := none }

/-- The engine after boot and three reconciliation cycles whose SpeedShift
source toggles 1, 0, 1. -/
def latchRun : Engine :=
  (readConfigAtRuntime cfgLatch (srcSpeedShift 49)
    (readConfigAtRuntime cfgLatch (srcSpeedShift 48)
      (readConfigAtRuntime cfgLatch (srcSpeedShift 49)
        (start cfgLatch (init msrsZero))).1).1).1

/-- C1 fails on the code: starting unlatched, the three-cycle SpeedShift
toggle 1, 0, 1 issues three PM_ENABLE writes (enable, disable, enable
again), because the runtime path checks the latch but never sets it; the
latch is still unset after the third cycle.  The claim says exactly one
write in total and zero writes in cycles 2 and 3. -/
theorem C1_runtime_latch_violated :
    countWrites .PM_ENABLE latchRun.log = 3 ∧
    latchRun.hwpEnableOnceSet = false ∧
    latchRun.log =
      [(.MISC_ENABLE, 0, 2 ^ 38),
       (.PM_ENABLE, 0, kEnableSpeedShiftBit),
       (.PM_ENABLE, kEnableSpeedShiftBit, kDisableSpeedShiftBit),
       (.PM_ENABLE, kDisableSpeedShiftBit, kEnableSpeedShiftBit)] := by
  refine ⟨by decide, by decide, by decide⟩

/-- Configuration with only the ProcHot runtime source configured. -/
def cfgProcHot : Config :=
  { turboBoostPath := false, ProcHotPath := true, speedShiftPath := false
  , hwpRequestConfigPath := false, enableIntelTurboBoost := false
  , enableIntelProcHot := false, enableIntelSpeedShift := false
  , supportedHWP := false, updateInterval := 2000 }

/-- Engine state with TurboBoost enabled (bit 38 of MISC_ENABLE clear, and
MISC_ENABLE equal to the original value masked by the turbo enable mask,
which is how the source itself rederives the enabled state) and ProcHot
currently on. -/
def engProcHot : Engine :=
  { msrs := { misc_enable := 0, perf_ctl := 0, power_ctl := 1, pm_enable := 0
            , hwp_request := 0 }
  , org_MSR_IA32_MISC_ENABLE := 0
  , org_MSR_IA32_PERF_CTL := 0
  , org_MSR_IA32_POWER_CTL := 1
  , org_HWPRequest := 0
  , org_MSR_IA32_PM_ENABLE := 0
  , hwpEnableOnceSet := false
  , log := [] }

/-- Sources where only the ProcHot file exists and holds the byte 0. -/
def srcProcHotOff : Sources :=
  { turboSrc := none, procHotSrc := some [48], speedShiftSrc := none
  , hwpSrc := none }

/-- C2 fails on the code: with TurboBoost enabled — bit 38 of MISC_ENABLE
clear, and MISC_ENABLE equal to the rederived enabled value the source
itself uses — a runtime ProcHot disable request goes through and clears the
ProcHot bit, because the guard tests whether MISC_ENABLE masked by
kEnableTurboBoostBits equals the whole mask, a condition on the 63 other
bits that is independent of the turbo bit. -/
theorem C2_prochot_guard_violated :
    (rdmsr64 engProcHot.msrs .MISC_ENABLE
      == (engProcHot.org_MSR_IA32_MISC_ENABLE &&& kEnableTurboBoostBits)) = true ∧
    engProcHot.msrs.misc_enable &&& kDisableTurboBoostBits = 0 ∧
    engProcHot.msrs.power_ctl &&& kEnableProcHotBit = 1 ∧
    (readConfigAtRuntime cfgProcHot srcProcHotOff engProcHot).1.msrs.power_ctl
        &&& kEnableProcHotBit = 0 := by
  refine ⟨by decide, by decide, by decide, by decide⟩

/-- Hardware state whose PM_ENABLE already reads 1 before the driver
loads. -/
def msrsPm1 : MSRs :=
  { misc_enable := 0, perf_ctl := 0, power_ctl := 0, pm_enable := 1
  , hwp_request := 0 }

/-- C3 fails on the code for PM_ENABLE: init never captures the register
(the org field keeps its zero-filled default), so a shutdown on an
HWP-capable machine writes 0 over the original value 1 even when no cycle
ever wrote the register. -/
theorem C3_pm_enable_not_restored :
    msrsPm1.pm_enable = 1 ∧
    (stop cfgLatch (init msrsPm1)).msrs.pm_enable = 0 ∧
    (stop cfgLatch (init msrsPm1)).msrs.misc_enable = msrsPm1.misc_enable ∧
    (stop cfgLatch (init msrsPm1)).msrs.power_ctl = msrsPm1.power_ctl ∧
    (stop cfgLatch (init msrsPm1)).msrs.perf_ctl = msrsPm1.perf_ctl ∧
    (stop cfgLatch (init msrsPm1)).msrs.hwp_request = msrsPm1.hwp_request := by
  refine ⟨by decide, by decide, by decide, by decide, by decide, by decide⟩

/-- C4: setIfNotEqual returns true exactly when a write occurred, leaves the
state untouched when the value read already equals the desired value, and
otherwise performs exactly the requested register write; a whole cycle
preserves the invariant that every logged write changed its register; and a
cycle whose HWPRequest source parses to the current HWP_REQUEST contents
performs zero HWP_REQUEST writes. -/
theorem C4_write_iff_different :
    (∀ (current expect : Nat) (m : MSRAddr) (e : Engine),
      ((setIfNotEqual current expect m e).1 = true ↔
        (setIfNotEqual current expect m e).2.log ≠ e.log) ∧
      (current = expect → (setIfNotEqual current expect m e).2 = e) ∧
      (current ≠ expect →
        (setIfNotEqual current expect m e).2.msrs = wrmsr64 e.msrs m expect)) ∧
    (∀ (cfg : Config) (src : Sources) (e : Engine),
      logChanges e.log = true →
      logChanges (readConfigAtRuntime cfg src e).1.log = true) ∧
    (∀ (cfg : Config) (src : Sources) (e : Engine) (bs : List Nat),
      src.hwpSrc = some bs →
      hexToInt (bs.take 10) = rdmsr64 e.msrs .HWP_REQUEST →
      countWrites .HWP_REQUEST (readConfigAtRuntime cfg src e).1.log
        = countWrites .HWP_REQUEST e.log) := by
  refine ⟨?_, ?_, ?_⟩
  · intro current expect m e
    by_cases h : current = expect
    · refine ⟨?_, fun _ => setIfNotEqual_snd_of_eq h, fun hne => absurd h hne⟩
      rw [setIfNotEqual_fst, setIfNotEqual_snd_of_eq h]
      simp [h]
    · refine ⟨?_, fun heq => absurd heq h, fun _ => ?_⟩
      · rw [setIfNotEqual_fst, setIfNotEqual_snd_of_ne h]
        simp [h]
      · rw [setIfNotEqual_snd_of_ne h]
  · intro cfg src e h
    show logChanges (speedShiftStep cfg src (hwpRequestStep cfg src
      (procHotStep cfg src (turboBoostStep cfg src e)))).log = true
    exact speedShiftStep_logChanges (hwpRequestStep_logChanges
      (procHotStep_logChanges (turboBoostStep_logChanges h)))
  · intro cfg src e bs hsrc heq
    have f1 := @turboBoostStep_frame cfg src e .HWP_REQUEST (by decide)
    have f2 := @procHotStep_frame cfg src (turboBoostStep cfg src e)
      .HWP_REQUEST (by decide)
    have hcur : rdmsr64 (procHotStep cfg src (turboBoostStep cfg src e)).msrs
        .HWP_REQUEST = rdmsr64 e.msrs .HWP_REQUEST := by
      rw [f2.2.1, f1.2.1]
    have hstep : hwpRequestStep cfg src (procHotStep cfg src
        (turboBoostStep cfg src e)) = procHotStep cfg src (turboBoostStep cfg src e) :=
      hwpRequestStep_current hsrc (heq.trans hcur.symm)
    show countWrites .HWP_REQUEST (speedShiftStep cfg src (hwpRequestStep cfg src
      (procHotStep cfg src (turboBoostStep cfg src e)))).log
        = countWrites .HWP_REQUEST e.log
    rw [(speedShiftStep_frame (m := .HWP_REQUEST) (by decide)).1, hstep, f2.1, f1.1]

/-- Configuration with only the HWPRequest source configured on an
HWP-capable machine. -/
def cfgHwpReq : Config :=
  { turboBoostPath := false, ProcHotPath := false, speedShiftPath := false
  , hwpRequestConfigPath := true, enableIntelTurboBoost := false
  , enableIntelProcHot := false, enableIntelSpeedShift := false
  , supportedHWP := true, updateInterval := 2000 }

/-- Engine whose HWP_REQUEST register already holds 0x1A2B3C. -/
def engHwpReq : Engine :=
  { msrs := { misc_enable := 0, perf_ctl := 0, power_ctl := 0, pm_enable := 0
            , hwp_request := 1715004 }
  , org_MSR_IA32_MISC_ENABLE := 0
  , org_MSR_IA32_PERF_CTL := 0
  , org_MSR_IA32_POWER_CTL := 0
  , org_HWPRequest := 1715004
  , org_MSR_IA32_PM_ENABLE := 0
  , hwpEnableOnceSet := false
  , log := [] }

/-- Sources where only the HWPRequest file exists, holding the hexadecimal
token 1A2B3C. -/
def srcHwp1A2B3C : Sources :=
  { turboSrc := none, procHotSrc := none, speedShiftSrc := none
  , hwpSrc := some [49, 65, 50, 66, 51, 67] }

/-- Witness for C4: the skip-when-equal clause at equal concrete values, the
log invariant on a concrete cycle, and the zero-write HWPRequest scenario
with the token 1A2B3C against a register already holding 0x1A2B3C. -/
theorem C4_write_iff_different_witness :
    (setIfNotEqual 7 7 .PM_ENABLE (init msrsZero)).2 = init msrsZero ∧
    logChanges (readConfigAtRuntime cfgHwpReq srcHwp1A2B3C engHwpReq).1.log = true ∧
    countWrites .HWP_REQUEST
        (readConfigAtRuntime cfgHwpReq srcHwp1A2B3C engHwpReq).1.log
      = countWrites .HWP_REQUEST engHwpReq.log :=
  ⟨(C4_write_iff_different.1 7 7 .PM_ENABLE (init msrsZero)).2.1 rfl,
   C4_write_iff_different.2.1 cfgHwpReq srcHwp1A2B3C engHwpReq (by decide),
   C4_write_iff_different.2.2 cfgHwpReq srcHwp1A2B3C engHwpReq
     [49, 65, 50, 66, 51, 67] rfl (by decide)⟩

/-- Configuration with only the TurboBoost runtime source configured. -/
def cfgTurbo : Config :=
  { turboBoostPath := true, ProcHotPath := false, speedShiftPath := false
  , hwpRequestConfigPath := false, enableIntelTurboBoost := false
  , enableIntelProcHot := false, enableIntelSpeedShift := false
  , supportedHWP := false, updateInterval := 2000 }

/-- Sources where no external file can be read this cycle. -/
def srcAllNone : Sources :=
  { turboSrc := none, procHotSrc := none, speedShiftSrc := none
  , hwpSrc := none }

/-- C5 as stated is false on the code: with TurboBoost currently enabled and
its source absent this cycle, the cycle treats the missing buffer as a
disable request and writes the disable bit to MISC_ENABLE — an absent source
is not a no-action Unset for the TurboBoost and ProcHot features. -/
theorem C5_absent_source_counterexample :
    srcAllNone.turboSrc = none ∧
    srcAllNone.procHotSrc = none ∧
    srcAllNone.speedShiftSrc = none ∧
    srcAllNone.hwpSrc = none ∧
    (readConfigAtRuntime cfgTurbo srcAllNone (init msrsZero)).1.log
      = [(.MISC_ENABLE, 0, 2 ^ 38)] := by
  refine ⟨rfl, rfl, rfl, rfl, by decide⟩

/-- C5 amended: an unreadable source causes no register write that cycle
only for the SpeedShift and HWPRequest features; the cycle leaves the latch
untouched, so the read is retried next cycle.  (TurboBoost and ProcHot
instead treat an absent buffer as a disable request.) -/
theorem C5_absent_source_skips_speedshift_and_hwp :
    ∀ (cfg : Config) (src : Sources) (e : Engine),
      (src.speedShiftSrc = none →
        countWrites .PM_ENABLE (readConfigAtRuntime cfg src e).1.log
          = countWrites .PM_ENABLE e.log) ∧
      (src.hwpSrc = none →
        countWrites .HWP_REQUEST (readConfigAtRuntime cfg src e).1.log
          = countWrites .HWP_REQUEST e.log) ∧
      (readConfigAtRuntime cfg src e).1.hwpEnableOnceSet = e.hwpEnableOnceSet := by
  intro cfg src e
  refine ⟨?_, ?_, ?_⟩
  · intro h
    show countWrites .PM_ENABLE (speedShiftStep cfg src (hwpRequestStep cfg src
      (procHotStep cfg src (turboBoostStep cfg src e)))).log
        = countWrites .PM_ENABLE e.log
    rw [speedShiftStep_none h,
        (hwpRequestStep_frame (m := .PM_ENABLE) (by decide)).1,
        (procHotStep_frame (m := .PM_ENABLE) (by decide)).1,
        (turboBoostStep_frame (m := .PM_ENABLE) (by decide)).1]
  · intro h
    show countWrites .HWP_REQUEST (speedShiftStep cfg src (hwpRequestStep cfg src
      (procHotStep cfg src (turboBoostStep cfg src e)))).log
        = countWrites .HWP_REQUEST e.log
    rw [(speedShiftStep_frame (m := .HWP_REQUEST) (by decide)).1,
        hwpRequestStep_none h,
        (procHotStep_frame (m := .HWP_REQUEST) (by decide)).1,
        (turboBoostStep_frame (m := .HWP_REQUEST) (by decide)).1]
  · show (speedShiftStep cfg src (hwpRequestStep cfg src
      (procHotStep cfg src (turboBoostStep cfg src e)))).hwpEnableOnceSet
        = e.hwpEnableOnceSet
    rw [(speedShiftStep_frame (m := .HWP_REQUEST) (by decide)).2.2,
        (hwpRequestStep_frame (m := .PM_ENABLE) (by decide)).2.2,
        (procHotStep_frame (m := .PM_ENABLE) (by decide)).2.2,
        (turboBoostStep_frame (m := .PM_ENABLE) (by decide)).2.2]

/-- Witness for C5 amended: the no-write clauses applied to the concrete
absent-source cycle. -/
theorem C5_absent_source_witness :
    countWrites .PM_ENABLE
        (readConfigAtRuntime cfgTurbo srcAllNone (init msrsZero)).1.log
      = countWrites .PM_ENABLE (init msrsZero).log ∧
    countWrites .HWP_REQUEST
        (readConfigAtRuntime cfgTurbo srcAllNone (init msrsZero)).1.log
      = countWrites .HWP_REQUEST (init msrsZero).log :=
  ⟨(C5_absent_source_skips_speedshift_and_hwp cfgTurbo srcAllNone
      (init msrsZero)).1 rfl,
   (C5_absent_source_skips_speedshift_and_hwp cfgTurbo srcAllNone
      (init msrsZero)).2.1 rfl⟩

/-- C6: the HWPRequest bounded read returns at most ten bytes, the whole
cycle depends only on the first ten bytes of the HWPRequest source, and
content whose first ten bytes do not parse as hexadecimal (hexToInt returns
the ERANGE sentinel) causes zero HWP_REQUEST writes that cycle. -/
theorem C6_hwp_bounded_read_and_malformed_skip :
    (∀ (bs : List Nat) (n : Nat),
      ((readFileNBytes (some bs) n).getD []).length ≤ n) ∧
    (∀ (cfg : Config) (src : Sources) (e : Engine) (bs : List Nat),
      readConfigAtRuntime cfg { src with hwpSrc := some bs } e
        = readConfigAtRuntime cfg { src with hwpSrc := some (bs.take 10) } e) ∧
    (∀ (cfg : Config) (src : Sources) (e : Engine) (bs : List Nat),
      src.hwpSrc = some bs →
      hexToInt (bs.take 10) = ERANGE →
      countWrites .HWP_REQUEST (readConfigAtRuntime cfg src e).1.log
        = countWrites .HWP_REQUEST e.log) := by
  refine ⟨?_, ?_, ?_⟩
  · intro bs n
    simp [readFileNBytes]
  · intro cfg src e bs
    unfold readConfigAtRuntime
    simp only [turboBoostStep_hwpSrc, procHotStep_hwpSrc, speedShiftStep_hwpSrc,
      hwpRequestStep_take10]
  · intro cfg src e bs hsrc he
    have hstep : hwpRequestStep cfg src (procHotStep cfg src
        (turboBoostStep cfg src e)) = procHotStep cfg src (turboBoostStep cfg src e) :=
      hwpRequestStep_erange hsrc he
    show countWrites .HWP_REQUEST (speedShiftStep cfg src (hwpRequestStep cfg src
      (procHotStep cfg src (turboBoostStep cfg src e)))).log
        = countWrites .HWP_REQUEST e.log
    rw [(speedShiftStep_frame (m := .HWP_REQUEST) (by decide)).1, hstep,
        (procHotStep_frame (m := .HWP_REQUEST) (by decide)).1,
        (turboBoostStep_frame (m := .HWP_REQUEST) (by decide)).1]

/-- Sources where only the HWPRequest file exists, holding the malformed
token zzzz. -/
def srcHwpZZZZ : Sources :=
  { turboSrc := none, procHotSrc := none, speedShiftSrc := none
  , hwpSrc := some [122, 122, 122, 122] }

/-- Witness for C6: the malformed-content clause applied to the literal
token zzzz, which parses to the ERANGE sentinel and causes zero HWP_REQUEST
writes. -/
theorem C6_hwp_malformed_witness :
    hexToInt ([122, 122, 122, 122].take 10) = ERANGE ∧
    countWrites .HWP_REQUEST
        (readConfigAtRuntime cfgHwpReq srcHwpZZZZ engHwpReq).1.log
      = countWrites .HWP_REQUEST engHwpReq.log :=
  ⟨by decide,
   C6_hwp_bounded_read_and_malformed_skip.2.2 cfgHwpReq srcHwpZZZZ engHwpReq
     [122, 122, 122, 122] rfl (by decide)⟩

/-- C7 as stated is false on the code: invoking the TurboBoost enable logic
twice on a state whose register already holds the enabled value produces
zero register writes, not exactly one. -/
theorem C7_double_enable_counterexample :
    (enableTurboBoost (enableTurboBoost (init msrsZero))).log.length = 0 ∧
    ((enableTurboBoost (enableTurboBoost (init msrsZero))).log.length = 1 →
      False) := by
  refine ⟨by decide, by decide⟩

/-- C7 amended: invoking a feature enable logic twice in a row with no
intervening external change produces at most one register write — the
second invocation changes nothing at all — and exactly one write occurs
when the first invocation read a value differing from the desired one. -/
theorem C7_enable_idempotent :
    ∀ e : Engine,
      enableTurboBoost (enableTurboBoost e) = enableTurboBoost e ∧
      enableProcHot (enableProcHot e) = enableProcHot e ∧
      enableSpeedShift (enableSpeedShift e) = enableSpeedShift e ∧
      (e.msrs.misc_enable ≠ e.msrs.misc_enable &&& kEnableTurboBoostBits →
        (enableTurboBoost e).log
          = e.log ++ [(.MISC_ENABLE, e.msrs.misc_enable,
                       e.msrs.misc_enable &&& kEnableTurboBoostBits)]) ∧
      (e.msrs.power_ctl ≠ e.msrs.power_ctl ||| kEnableProcHotBit →
        (enableProcHot e).log
          = e.log ++ [(.POWER_CTL, e.msrs.power_ctl,
                       e.msrs.power_ctl ||| kEnableProcHotBit)]) ∧
      (e.msrs.pm_enable ≠ kEnableSpeedShiftBit →
        (enableSpeedShift e).log
          = e.log ++ [(.PM_ENABLE, e.msrs.pm_enable, kEnableSpeedShiftBit)]) := by
  intro e
  refine ⟨enableTurboBoost_of_fixed (enableTurboBoost_fixed e),
          enableProcHot_of_fixed (enableProcHot_fixed e),
          enableSpeedShift_of_fixed (enableSpeedShift_pm e),
          ?_, ?_, ?_⟩
  · intro h
    unfold enableTurboBoost
    dsimp only [rdmsr64]
    rw [setIfNotEqual_snd_of_ne h]
  · intro h
    unfold enableProcHot
    dsimp only [rdmsr64]
    rw [setIfNotEqual_snd_of_ne h]
  · intro h
    unfold enableSpeedShift
    dsimp only [rdmsr64]
    rw [setIfNotEqual_snd_of_ne h]

/-- Engine state in which each feature register differs from its enabled
value: bit 38 of MISC_ENABLE set, ProcHot bit of POWER_CTL clear, PM_ENABLE
zero. -/
def engC7 : Engine :=
  { msrs := { misc_enable := 2 ^ 38, perf_ctl := 0, power_ctl := 32
            , pm_enable := 0, hwp_request := 0 }
  , org_MSR_IA32_MISC_ENABLE := 0
  , org_MSR_IA32_PERF_CTL := 0
  , org_MSR_IA32_POWER_CTL := 0
  , org_HWPRequest := 0
  , org_MSR_IA32_PM_ENABLE := 0
  , hwpEnableOnceSet := false
  , log := [] }

/-- Witness for C7 amended: at a concrete state differing from every
enabled value, each first enable appends exactly one write and the repeated
TurboBoost enable changes nothing. -/
theorem C7_enable_idempotent_witness :
    enableTurboBoost (enableTurboBoost engC7) = enableTurboBoost engC7 ∧
    (enableTurboBoost engC7).log
      = engC7.log ++ [(.MISC_ENABLE, engC7.msrs.misc_enable,
                       engC7.msrs.misc_enable &&& kEnableTurboBoostBits)] ∧
    (enableProcHot engC7).log
      = engC7.log ++ [(.POWER_CTL, engC7.msrs.power_ctl,
                       engC7.msrs.power_ctl ||| kEnableProcHotBit)] ∧
    (enableSpeedShift engC7).log
      = engC7.log ++ [(.PM_ENABLE, engC7.msrs.pm_enable, kEnableSpeedShiftBit)] :=
  ⟨(C7_enable_idempotent engC7).1,
   (C7_enable_idempotent engC7).2.2.2.1 (by decide),
   (C7_enable_idempotent engC7).2.2.2.2.1 (by decide),
   (C7_enable_idempotent engC7).2.2.2.2.2 (by decide)⟩

end CPUTune
